import Mathlib

/-
Verification of the actuarial core of the personal-professional-site
insurance calculators.

The embedding models the three Python source files:
  life-insurance-calculators/insurance_calcv2.py        (endowment solver, v2)
  Life Insurance Calculator/insurance_library.py        (endowment solver, library)
  Life Insurance Calculator/life_insurance_calculator.py (term solver)

Conventions of the shallow embedding:
  - Python floats are modelled by exact rationals where the source only uses
    field operations on its inputs, and by real numbers where the source
    uses math.pow with fractional exponents (the term solver and the
    real-exponent annuity).
  - Python exceptions (ZeroDivisionError, KeyError, ValueError) are modelled
    by the error case of Except Unit.
  - The mortality table returned by load_death_probabilities is a dict with
    keys "female" and "male" whose values are pandas Series; it is modelled
    by a structure with two optional association lists from age to an
    optional probability (none modelling a NaN cell).
-/

namespace Insurance

/-- One gender series of the mortality table: an association list from age to
a value that may be missing (NaN), mirroring a pandas Series row. -/
abbrev Series := List (Nat × Option ℚ)

/-- The dict returned by load_death_probabilities: keys "female" and "male";
an absent key is modelled by none. -/
structure Table where
  female : Option Series
  male : Option Series
deriving DecidableEq

instance instDecEqExcept {α : Type} [DecidableEq α] : DecidableEq (Except Unit α) := fun
  | .error (), .error () => isTrue rfl
  | .error (), .ok _ => isFalse (fun h => by cases h)
  | .ok _, .error () => isFalse (fun h => by cases h)
  | .ok x, .ok y =>
    if h : x = y then isTrue (by rw [h])
    else isFalse (fun hc => by cases hc; exact h rfl)

/-- Python str.lower(), as applied to the gender argument.  Modelled by
lowercasing each character (the gender strings involved are ASCII). -/
def pyLower (s : String) : String := ⟨s.data.map Char.toLower⟩

/-- Lookup of an age inside one (possibly absent) series, as done by the
body of get_death_probability in insurance_library.py / insurance_calcv2.py:
prob starts at 0.0 and is only replaced when the index contains the age and
the value is not NaN; if the resolved data is None the length test raises
and the exception handler leaves prob at 0.0. -/
def seriesLookup (s : Option Series) (age : Nat) : ℚ :=
  match s with
  | none => 0
  | some l =>
    match l.lookup age with
    | some (some v) => v
    | _ => 0

/-- Gender-resolution step of get_death_probability in insurance_library.py
and insurance_calcv2.py.  key = str(gender).lower(); if the key is a present
dict entry that series is used; otherwise the source evaluates
data.get("female") or data.get("male"), and the truth test of a present
pandas Series raises ValueError (modelled by the error case); when the
female entry is absent the or-expression yields the male entry without any
truth test. -/
def resolveSeries (t : Table) (gender : String) : Except Unit (Option Series) :=
  let key := pyLower gender
  if key = "female" ∧ t.female.isSome then .ok t.female
  else if key = "male" ∧ t.male.isSome then .ok t.male
  else
    match t.female with
    | some _ => .error ()
    | none => .ok t.male

/-- get_death_probability of insurance_library.py / insurance_calcv2.py. -/
def get_death_probability (data : Option Table) (age : Nat) (gender : String) :
    Except Unit ℚ := do
  match data with
  | none => return 0
  | some t =>
    let s ← resolveSeries t gender
    return seriesLookup s age

/-- get_death_probability of life_insurance_calculator.py: picks
data["male"] exactly when gender == "male", else data["female"] (KeyError
when the key is absent), then indexes the series by the age (KeyError when
the age is not in the index); a present NaN value yields 0. -/
def get_death_probability_lc (data : Option Table) (age : Nat) (gender : String) :
    Except Unit ℚ :=
  match data with
  | none => .ok 0
  | some t =>
    match (if gender == "male" then t.male else t.female) with
    | none => .error ()
    | some l =>
      match l.lookup age with
      | none => .error ()
      | some none => .ok 0
      | some (some v) => .ok v

/-- accumulated_annuity of insurance_library.py / insurance_calcv2.py on a
whole number of periods.  type 1 is the ordinary annuity
((1+i)^periods - 1) / i; Python raises ZeroDivisionError at i = 0.
type 2 divides by (1 - 1/i)^(-1): i = 0 raises ZeroDivisionError at 1/i and
i = 1 makes the base 0, where math.pow(0.0, -1.0) raises ValueError.
Any other type returns 0 (the library variant returns an empty tuple there;
no caller uses it). -/
def accumulated_annuity (periods : Nat) (i : ℚ) (ty : Nat) : Except Unit ℚ :=
  if ty = 1 then
    if i = 0 then .error () else .ok (((1 + i) ^ periods - 1) / i)
  else if ty = 2 then
    if i = 0 then .error ()
    else if (1 : ℚ) - 1 / i = 0 then .error ()
    else .ok (((1 + i) ^ periods - 1) / ((1 - 1 / i)⁻¹))
  else .ok 0

/-- The value of the ordinary accumulated annuity at a nonzero rate. -/
def accumulated_annuity_val (periods : Nat) (i : ℚ) : ℚ :=
  ((1 + i) ^ periods - 1) / i

theorem accumulated_annuity_ok (periods : Nat) (i : ℚ) (hi : i ≠ 0) :
    accumulated_annuity periods i 1 = .ok (accumulated_annuity_val periods i) := by
  simp [accumulated_annuity, accumulated_annuity_val, hi]

/-- The loop state of calculate_premium in insurance_calcv2.py /
insurance_library.py: prob_death_given_age_is_x (the previous age's death
probability), prob_age_is_x (the running survival probability), death_cdf
and weighted_total_annuity. -/
structure EndowState where
  qPrev : ℚ
  alive : ℚ
  cdf : ℚ
  weighted : ℚ
deriving DecidableEq

/-- Initial loop state of calculate_premium: probabilities seeded at 0,
survival at 1, both accumulators at 0. -/
def initEndowState : EndowState := ⟨0, 1, 0, 0⟩

/-- One iteration of the calculate_premium loop, exactly as in the source:
the survival probability is updated with the previous age's death
probability, then this age's probability is fetched; the weight is
alive * prob except at the last age, where it is alive itself. -/
def endowStepE (data : Option Table) (gender : String) (current_age payout_age : Nat)
    (interest : ℚ) (s : EndowState) (a : Nat) : Except Unit EndowState := do
  let alive := (1 - s.qPrev) * s.alive
  let qa ← get_death_probability data a gender
  let w := if a < payout_age - 1 then alive * qa else alive
  let ann ← accumulated_annuity (a - current_age) interest 1
  return ⟨qa, alive, s.cdf + w, s.weighted + ann * w⟩

/-- Pure form of one calculate_premium loop iteration, for a table whose
lookups succeed with probabilities q and a nonzero rate. -/
def endowStep (q : Nat → ℚ) (current_age payout_age : Nat) (interest : ℚ)
    (s : EndowState) (a : Nat) : EndowState :=
  let alive := (1 - s.qPrev) * s.alive
  let qa := q a
  let w := if a < payout_age - 1 then alive * qa else alive
  ⟨qa, alive, s.cdf + w, s.weighted + accumulated_annuity_val (a - current_age) interest * w⟩

/-- calculate_premium of insurance_calcv2.py: returns none (the Python pair
(None, None)) when the loader produced no table, otherwise runs the loop
over range(current_age, payout_age) and returns the premium
payout / weighted_total_annuity (0 when the weight total is not positive)
together with death_cdf. -/
def calculate_premium_v2 (data : Option Table) (current_age payout_age : Nat)
    (interest payout : ℚ) (gender : String) : Except Unit (Option (ℚ × ℚ)) :=
  match data with
  | none => .ok none
  | some _ => do
    let s ← (List.range' current_age (payout_age - current_age)).foldlM
      (endowStepE data gender current_age payout_age interest) initEndowState
    return some (if 0 < s.weighted then payout / s.weighted else 0, s.cdf)

/-- calculate_premium of insurance_library.py: same loop, but no missing
table guard (lookups on a missing table all yield 0.0) and no zero guard on
the division, so a zero weighted_total_annuity raises ZeroDivisionError;
only the premium is returned (death_cdf is merely printed). -/
def calculate_premium_lib (data : Option Table) (current_age payout_age : Nat)
    (interest payout : ℚ) (gender : String) : Except Unit ℚ := do
  let s ← (List.range' current_age (payout_age - current_age)).foldlM
    (endowStepE data gender current_age payout_age interest) initEndowState
  if s.weighted = 0 then .error () else return payout / s.weighted

/-- The early-exit loop shared by both calculate_risk_tolerance variants,
returning the early-return value (if the accumulated premium crossed the
payout) together with the death_cdf at the end of the walk. -/
def riskGo (data : Option Table) (gender : String) (premium payout : ℚ)
    (current_age : Nat) (interest : ℚ) :
    List Nat → ℚ → ℚ → ℚ → Except Unit (Option ℚ × ℚ)
  | [], _, _, cdf => .ok (none, cdf)
  | a :: rest, qPrev, alive, cdf => do
    let alive := (1 - qPrev) * alive
    let qa ← get_death_probability data a gender
    let cdf := cdf + alive * qa
    let ann ← accumulated_annuity (a - current_age) interest 1
    if payout < premium * ann then .ok (some cdf, cdf)
    else riskGo data gender premium payout current_age interest rest qa alive cdf

/-- calculate_risk_tolerance of insurance_library.py: no missing-table
guard, and no return statement after the loop, so when the accumulated
premium never exceeds the payout the function returns Python None
(modelled by the none component). -/
def calculate_risk_tolerance_lib (premium payout : ℚ) (current_age payout_age : Nat)
    (interest : ℚ) (gender : String) (data : Option Table) : Except Unit (Option ℚ) := do
  let r ← riskGo data gender premium payout current_age interest
    (List.range' current_age (payout_age - current_age)) 0 1 0
  return r.1

/-- calculate_risk_tolerance of insurance_calcv2.py: returns 0 when the
loader produced no table, and returns death_cdf after the loop when the
crossing never happens. -/
def calculate_risk_tolerance_v2 (premium payout : ℚ) (current_age payout_age : Nat)
    (interest : ℚ) (gender : String) (data : Option Table) : Except Unit ℚ :=
  match data with
  | none => .ok 0
  | some _ => do
    let r ← riskGo data gender premium payout current_age interest
      (List.range' current_age (payout_age - current_age)) 0 1 0
    return (r.1.getD r.2)

/-- A table whose two series are present but empty: every lookup through
get_death_probability yields probability 0. -/
def zeroTable : Table := ⟨some [], some []⟩

section TermSolver

/-- The health rating keys of the health_factors dict in
life_insurance_calculator.py. -/
inductive HealthRating where
  /-- 'Preferred Plus (Excellent)' -/
  | preferredPlus
  /-- 'Preferred (Good)' -/
  | preferredGood
  /-- 'Standard (Average)' -/
  | standardAverage
  /-- 'Substandard (Below Average)' -/
  | substandard
deriving DecidableEq

/-- The health_factors dict of calculate_premium in
life_insurance_calculator.py. -/
noncomputable def health_factors : HealthRating → ℝ := fun
  | .preferredPlus => 0.7
  | .preferredGood => 1.0
  | .standardAverage => 1.4
  | .substandard => 2.0

/-- The two mortality adjustments of the term solver, applied exactly as in
the source: the base probability is multiplied by 2.5 when smoker is set,
then by the health rating factor.  No clamping to [0, 1] is performed. -/
noncomputable def adjust_death_prob (base : ℝ) (smoker : Bool) (factor : ℝ) : ℝ :=
  (if smoker then base * 2.5 else base) * factor

/-- The hard-coded discount rate of calculate_premium in
life_insurance_calculator.py. -/
noncomputable def discount_rate : ℝ := 0.03

/-- The loop state of the term solver in life_insurance_calculator.py:
expected_claims, survival_probability and cumulative_death_prob. -/
structure TermState where
  expected : ℝ
  survival : ℝ
  cumulative : ℝ

/-- One iteration of the term-solver loop of calculate_premium in
life_insurance_calculator.py, for year offset y: look up the death
probability at age + y, apply the smoker and health multipliers, accumulate
the mid-year discounted expected claim and the cumulative death
probability, and update the survival probability. -/
noncomputable def termStep (data : Option Table) (gender : String) (age : Nat)
    (coverage : ℝ) (smoker : Bool) (health_rating : HealthRating)
    (s : TermState) (year : Nat) : Except Unit TermState := do
  let current_age := age + year
  let base ← get_death_probability_lc data current_age gender
  let death_prob := adjust_death_prob (base : ℝ) smoker (health_factors health_rating)
  let death_this_year := s.survival * death_prob
  let cumulative := s.cumulative + death_this_year
  let discount_factor := (1 + discount_rate) ^ (-(((year : ℝ)) + 0.5))
  let expected := s.expected + death_this_year * coverage * discount_factor
  let survival := s.survival * (1 - death_prob)
  return ⟨expected, survival, cumulative⟩

/-- calculate_premium of life_insurance_calculator.py (the term solver).
When the loader produced no table it returns the pair (0, 0) at once.
Otherwise it runs the year loop, loads the result with the 1.25 profit
margin and the fixed 100/month expense loading, divides by the present
value of the monthly annuity at the monthly equivalent of the 3% annual
rate, floors the result at 10/month, and reports the cumulative death
probability as a percentage. -/
noncomputable def calculate_premium_term (age : Nat) (gender : String) (coverage : ℝ)
    (term_length : Nat) (smoker : Bool) (health_rating : HealthRating)
    (data : Option Table) : Except Unit (ℝ × ℝ) :=
  match data with
  | none => .ok (0, 0)
  | some _ => do
    let s ← (List.range term_length).foldlM
      (termStep data gender age coverage smoker health_rating) ⟨0, 1, 0⟩
    let profit_margin : ℝ := 1.25
    let expense_loading : ℝ := 100
    let monthly_discount_rate := (1 + discount_rate) ^ ((1 : ℝ) / 12) - 1
    let num_payments : ℝ := (term_length : ℝ) * 12
    let annuity_pv := (1 - (1 + monthly_discount_rate) ^ (-num_payments)) / monthly_discount_rate
    let monthly_premium := (s.expected * profit_margin) / annuity_pv + expense_loading
    return (max monthly_premium 10, s.cumulative * 100)

/-- accumulated_annuity on real (possibly fractional) periods, as computed
by math.pow on floats.  At rate 0 the source raises ZeroDivisionError; this
real-valued form is used only at nonzero rates, where it agrees with the
source.  Type 2 divides by (1 - 1/i)^(-1) exactly as the source does. -/
noncomputable def accumulated_annuity_real (periods i : ℝ) (ty : Nat) : ℝ :=
  if ty = 1 then ((1 + i) ^ periods - 1) / i
  else if ty = 2 then ((1 + i) ^ periods - 1) / ((1 - 1 / i) ^ (-(1 : ℝ)))
  else 0

end TermSolver

section Helpers

theorem pyLower_female : pyLower "female" = "female" := by decide

theorem pyLower_other : pyLower "other" = "other" := by decide

theorem ok_bind {α β : Type} (a : α) (f : α → Except Unit β) :
    (Except.ok a >>= f) = f a := rfl

theorem error_bind {α β : Type} (f : α → Except Unit β) :
    (Except.error () >>= f) = Except.error () := rfl

theorem exc_pure {α : Type} (a : α) : (pure a : Except Unit α) = Except.ok a := rfl

/-- When every table lookup succeeds with probabilities q and the rate is
nonzero (so the annuity raises no ZeroDivisionError), the monadic
calculate_premium loop agrees with its pure form. -/
theorem foldlM_endowStep (data : Option Table) (g : String) (cur pay : Nat) (i : ℚ)
    (q : Nat → ℚ) (hi : i ≠ 0)
    (hq : ∀ a, get_death_probability data a g = .ok (q a)) :
    ∀ (l : List Nat) (s : EndowState),
      l.foldlM (endowStepE data g cur pay i) s = .ok (l.foldl (endowStep q cur pay i) s)
  | [], _ => rfl
  | a :: l, s => by
    rw [List.foldlM_cons, List.foldl_cons]
    have hstep : endowStepE data g cur pay i s a = .ok (endowStep q cur pay i s a) := by
      simp [endowStepE, endowStep, hq a, accumulated_annuity_ok _ _ hi, ok_bind, exc_pure]
    rw [hstep, ok_bind]
    exact foldlM_endowStep data g cur pay i q hi hq l _

theorem range'_concat_one (s n : Nat) :
    List.range' s (n + 1) = List.range' s n ++ [s + n] := by
  induction n generalizing s with
  | zero => rfl
  | succ n ih =>
    have h1 : s + 1 + n = s + (n + 1) := by omega
    rw [List.range'_succ, ih (s + 1), List.range'_succ, List.cons_append, h1]

/-- The telescoping invariant of the calculate_premium loop: the death cdf
accumulated so far plus the survival mass of the next state equals 1. -/
def cdfInv (s : EndowState) : Prop := s.cdf + (1 - s.qPrev) * s.alive = 1

theorem endowStep_cdfInv (q : Nat → ℚ) (cur pay : Nat) (i : ℚ) (s : EndowState)
    (a : Nat) (ha : a < pay - 1) (h : cdfInv s) :
    cdfInv (endowStep q cur pay i s a) := by
  unfold cdfInv endowStep at *
  simp only [if_pos ha]
  linear_combination h

theorem foldl_cdfInv (q : Nat → ℚ) (cur pay : Nat) (i : ℚ) :
    ∀ (l : List Nat), (∀ a ∈ l, a < pay - 1) → ∀ s : EndowState, cdfInv s →
      cdfInv (l.foldl (endowStep q cur pay i) s)
  | [], _, _, hs => hs
  | a :: l, h, s, hs => by
    rw [List.foldl_cons]
    exact foldl_cdfInv q cur pay i l (fun b hb => h b (List.mem_cons_of_mem a hb)) _
      (endowStep_cdfInv q cur pay i s a (h a (List.mem_cons_self a l)) hs)

theorem endowStep_last_cdf (q : Nat → ℚ) (cur pay : Nat) (i : ℚ) (s : EndowState)
    (a : Nat) (ha : ¬ a < pay - 1) (h : cdfInv s) :
    (endowStep q cur pay i s a).cdf = 1 := by
  unfold cdfInv at h
  simp only [endowStep, if_neg ha]
  linear_combination h

/-- The death cdf of the full calculate_premium loop is exactly 1 for any
probabilities q whatsoever, by telescoping. -/
theorem endow_loop_cdf (q : Nat → ℚ) (cur pay : Nat) (i : ℚ) (h : cur < pay) :
    ((List.range' cur (pay - cur)).foldl (endowStep q cur pay i) initEndowState).cdf = 1 := by
  obtain ⟨n, hn⟩ : ∃ n, pay - cur = n + 1 := ⟨pay - cur - 1, by omega⟩
  rw [hn, range'_concat_one cur n]
  rw [List.foldl_append, List.foldl_cons, List.foldl_nil]
  refine endowStep_last_cdf q cur pay i _ (cur + n) (by omega) ?_
  refine foldl_cdfInv q cur pay i _ (fun a ha => ?_) _ ?_
  · rw [List.mem_range'_1] at ha
    omega
  · unfold cdfInv initEndowState
    norm_num

/-- A run of the calculate_premium loop under an all-zero mortality table:
the state is unchanged except at the last age, which contributes the whole
survival mass 1 and the annuity factor of the last offset. -/
theorem foldl_zero_q (cur pay : Nat) (i : ℚ) :
    ∀ (l : List Nat), (∀ a ∈ l, a < pay - 1) → ∀ c w : ℚ,
      l.foldl (endowStep (fun _ => 0) cur pay i) ⟨0, 1, c, w⟩ = ⟨0, 1, c, w⟩
  | [], _, _, _ => rfl
  | a :: l, h, c, w => by
    rw [List.foldl_cons]
    have hstep : endowStep (fun _ => 0) cur pay i ⟨0, 1, c, w⟩ a = ⟨0, 1, c, w⟩ := by
      simp only [endowStep]
      rw [if_pos (h a (List.mem_cons_self a l))]
      norm_num
    rw [hstep]
    exact foldl_zero_q cur pay i l (fun b hb => h b (List.mem_cons_of_mem a hb)) c w

theorem endow_loop_zero (cur pay : Nat) (i : ℚ) (h : cur < pay) :
    (List.range' cur (pay - cur)).foldl (endowStep (fun _ => 0) cur pay i) initEndowState
      = ⟨0, 1, 1, accumulated_annuity_val (pay - cur - 1) i⟩ := by
  obtain ⟨n, hn⟩ : ∃ n, pay - cur = n + 1 := ⟨pay - cur - 1, by omega⟩
  have hn1 : pay - cur - 1 = n := by omega
  rw [hn1, hn, range'_concat_one cur n]
  rw [List.foldl_append]
  rw [show initEndowState = (⟨0, 1, 0, 0⟩ : EndowState) from rfl]
  rw [foldl_zero_q cur pay i _ (fun a ha => by rw [List.mem_range'_1] at ha; omega) 0 0]
  rw [List.foldl_cons, List.foldl_nil]
  have hlast : ¬ cur + n < pay - 1 := by omega
  have hsub : cur + n - cur = n := by omega
  simp only [endowStep]
  rw [if_neg hlast, hsub]
  norm_num

theorem accumulated_annuity_val_pos (k : Nat) (i : ℚ) (hk : k ≠ 0) (hi : 0 < i) :
    0 < accumulated_annuity_val k i := by
  refine div_pos ?_ hi
  have h1 : (1 : ℚ) < 1 + i := by linarith
  have := one_lt_pow₀ h1 hk
  linarith

theorem exc_map_ok {α β : Type} (f : α → β) (a : α) :
    (Except.ok a : Except Unit α).map f = Except.ok (f a) := rfl

end Helpers

section Claims

/-- Claim C1, counterexample to the quantifier over every rate: at rate 0
the accumulated_annuity call inside the endowment loop raises
ZeroDivisionError (pow(1, k) - 1 = 0 divided by 0.0), so the solve aborts
and no death_cdf is accumulated at all, let alone one summing to 1. -/
theorem endowment_zero_rate_counterexample :
    calculate_premium_v2 (some zeroTable) 20 22 0 100 "female" = .error () := by
  have h : List.range' 20 (22 - 20) = [20, 21] := rfl
  simp [calculate_premium_v2, h, List.foldlM_cons, List.foldlM_nil, endowStepE,
    get_death_probability, resolveSeries, pyLower_female, seriesLookup, accumulated_annuity,
    initEndowState, zeroTable, ok_bind, error_bind, exc_pure]

/-- Claim C1 (amended to nonzero rates): for every issue age strictly below
the maturity age, every nonzero rate, and every mortality table whose
lookups all succeed with probabilities in [0, 1], the death_cdf accumulated
by the endowment solve of insurance_calcv2.py is exactly 1 (in exact
rational arithmetic, hence within any floating tolerance). -/
theorem endowment_death_cdf_sums_to_one (t : Table) (current_age payout_age : Nat)
    (interest payout : ℚ) (gender : String) (q : Nat → ℚ)
    (hrange : current_age < payout_age) (hi : interest ≠ 0)
    (hq : ∀ a, get_death_probability (some t) a gender = .ok (q a))
    (hq01 : ∀ a, 0 ≤ q a ∧ q a ≤ 1) :
    (calculate_premium_v2 (some t) current_age payout_age interest payout gender).map
      (Option.map Prod.snd) = .ok (some 1) := by
  unfold calculate_premium_v2
  rw [foldlM_endowStep (some t) gender current_age payout_age interest q hi hq, ok_bind]
  rw [exc_pure, exc_map_ok]
  rw [endow_loop_cdf q current_age payout_age interest hrange]
  rfl

/-- Witness for C1: the spec scenario ages 20 to 60 at rate 6 percent with a
zero-mortality table. -/
theorem endowment_death_cdf_sums_to_one_witness :
    20 < 60 ∧ (6 / 100 : ℚ) ≠ 0 ∧
    (calculate_premium_v2 (some zeroTable) 20 60 (6 / 100) 100000 "female").map
      (Option.map Prod.snd) = .ok (some 1) :=
  ⟨by norm_num, by norm_num,
    endowment_death_cdf_sums_to_one zeroTable 20 60 (6 / 100) 100000 "female" (fun _ => 0)
      (by norm_num) (by norm_num) (fun _ => rfl) (fun _ => by norm_num)⟩

/-- Claim C2, counterexample: with the all-zero table, issue age 0, maturity
age 2, rate 1 and payout 1, the premium returned by the endowment solve is
1 (the last loop iteration uses the annuity at offset years - 1 = 1, whose
value is 1), while accumulated_value(years, rate, ordinary) at years = 2 is
3, so premium times the years-annuity is 3, not the payout 1. -/
theorem endowment_roundtrip_counterexample :
    calculate_premium_v2 (some zeroTable) 0 2 1 1 "female" = .ok (some (1, 1)) ∧
    accumulated_annuity 2 1 1 = .ok 3 ∧ (1 : ℚ) * 3 ≠ 1 := by
  refine ⟨?_, ?_, by norm_num⟩
  · have h : List.range' 0 (2 - 0) = [0, 1] := rfl
    simp [calculate_premium_v2, h, List.foldlM_cons, List.foldlM_nil, endowStepE,
      get_death_probability, resolveSeries, pyLower_female, seriesLookup, accumulated_annuity,
      initEndowState, zeroTable, ok_bind, exc_pure]
  · simp [accumulated_annuity]
    norm_num

/-- Claim C2 (amended): with a table whose lookups all return 0, a positive
rate and at least two policy years, the endowment solve returns death_cdf 1
and the premium payout / accumulated_value(years - 1, rate, ordinary), and
that premium multiplied by the annuity at years - 1 (not years) recovers
the payout exactly. -/
theorem endowment_zero_mortality_roundtrip (t : Table) (current_age payout_age : Nat)
    (interest payout : ℚ) (gender : String)
    (h2 : current_age + 2 ≤ payout_age) (hi : 0 < interest)
    (hq : ∀ a, get_death_probability (some t) a gender = .ok 0) :
    calculate_premium_v2 (some t) current_age payout_age interest payout gender =
      .ok (some (payout / accumulated_annuity_val (payout_age - current_age - 1) interest, 1)) ∧
    payout / accumulated_annuity_val (payout_age - current_age - 1) interest *
      accumulated_annuity_val (payout_age - current_age - 1) interest = payout ∧
    accumulated_annuity (payout_age - current_age - 1) interest 1 =
      .ok (accumulated_annuity_val (payout_age - current_age - 1) interest) := by
  have hApos : 0 < accumulated_annuity_val (payout_age - current_age - 1) interest :=
    accumulated_annuity_val_pos _ interest (by omega) hi
  refine ⟨?_, div_mul_cancel₀ payout (ne_of_gt hApos), accumulated_annuity_ok _ _ (ne_of_gt hi)⟩
  unfold calculate_premium_v2
  rw [foldlM_endowStep (some t) gender current_age payout_age interest (fun _ => 0)
    (ne_of_gt hi) hq, ok_bind]
  rw [endow_loop_zero current_age payout_age interest (by omega)]
  rw [exc_pure]
  rw [if_pos hApos]

/-- Witness for C2: the spec scenario with issue age 20, maturity age 60,
rate 12 percent and payout 100000 under the zero-mortality table; the
premium is 100000 divided by the annuity at 39 = years - 1 periods. -/
theorem endowment_zero_mortality_roundtrip_witness :
    20 + 2 ≤ 60 ∧ (0 : ℚ) < 12 / 100 ∧
    calculate_premium_v2 (some zeroTable) 20 60 (12 / 100) 100000 "female" =
      .ok (some (100000 / accumulated_annuity_val 39 (12 / 100), 1)) ∧
    100000 / accumulated_annuity_val 39 (12 / 100) * accumulated_annuity_val 39 (12 / 100) =
      100000 :=
  ⟨by norm_num, by norm_num,
    (endowment_zero_mortality_roundtrip zeroTable 20 60 (12 / 100) 100000 "female"
      (by norm_num) (by norm_num) (fun _ => rfl)).1,
    (endowment_zero_mortality_roundtrip zeroTable 20 60 (12 / 100) 100000 "female"
      (by norm_num) (by norm_num) (fun _ => rfl)).2.1⟩

/-- Claim C3, counterexample: with a missing table the term solve of
life_insurance_calculator.py returns the plain pair (0, 0) - a zero premium
indistinguishable from a computed one (the 10-dollar floor is not even
applied), not a distinguished failure value. -/
theorem missing_table_term_returns_zero_premium :
    calculate_premium_term 35 "female" 500000 20 false HealthRating.preferredGood none =
      .ok (0, 0) := rfl

/-- Claim C3 (amended): for every input, a missing table makes the
endowment solve of insurance_calcv2.py return the explicit failure value
(None, None), while the term solve of life_insurance_calculator.py returns
the sentinel pair (0, 0), i.e. a zero premium with no failure signal. -/
theorem missing_table_solver_results :
    (∀ (current_age payout_age : Nat) (interest payout : ℚ) (gender : String),
      calculate_premium_v2 none current_age payout_age interest payout gender = .ok none) ∧
    (∀ (age : Nat) (gender : String) (coverage : ℝ) (term_length : Nat) (smoker : Bool)
      (hr : HealthRating),
      calculate_premium_term age gender coverage term_length smoker hr none = .ok (0, 0)) :=
  ⟨fun _ _ _ _ _ => rfl, fun _ _ _ _ _ _ => rfl⟩

/-- Claim C4: concrete run showing the divergence between the two
break-even walks when the crossing never occurs (premium 0): the
insurance_library.py variant falls off the end of its loop and returns
Python None, while the insurance_calcv2.py variant returns the full-horizon
cumulative death probability (0 under the zero table) as the claim and the
spec demand. -/
theorem risk_tolerance_no_crossing_eval :
    calculate_risk_tolerance_lib 0 100000 20 25 (6 / 100) "female" (some zeroTable) =
      .ok none ∧
    calculate_risk_tolerance_v2 0 100000 20 25 (6 / 100) "female" (some zeroTable) =
      .ok 0 := by
  have h : List.range' 20 (25 - 20) = [20, 21, 22, 23, 24] := rfl
  constructor
  · simp [calculate_risk_tolerance_lib, riskGo, h, get_death_probability, resolveSeries,
      pyLower_female, seriesLookup, accumulated_annuity, zeroTable, ok_bind, exc_pure]
    norm_num [ok_bind]
  · simp [calculate_risk_tolerance_v2, riskGo, h, get_death_probability, resolveSeries,
      pyLower_female, seriesLookup, accumulated_annuity, zeroTable, ok_bind, exc_pure]
    norm_num [ok_bind]

/-- Claim C5, counterexample: in life_insurance_calculator.py an age with
no entry in the gender series does not yield 0.0 - the Series indexing
raises KeyError (here: empty female series, age 30). -/
theorem lc_lookup_missing_age_raises :
    get_death_probability_lc (some zeroTable) 30 "female" = .error () ∧
    get_death_probability_lc (some zeroTable) 30 "female" ≠ .ok 0 := by
  constructor
  · simp [get_death_probability_lc, zeroTable]
  · simp [get_death_probability_lc, zeroTable]

/-- Claim C5 (amended): the insurance_library.py / insurance_calcv2.py
lookup returns 0.0 without raising whenever the recognized gender series
has no entry for the age or a NaN entry; the life_insurance_calculator.py
lookup returns 0 only when the entry is present but NaN, and raises
KeyError when the age has no entry at all. -/
theorem lookup_missing_data_policy :
    (∀ (t : Table) (l : Series) (age : Nat) (g : String),
      ((pyLower g = "female" ∧ t.female = some l) ∨ (pyLower g = "male" ∧ t.male = some l)) →
      (l.lookup age = none ∨ l.lookup age = some none) →
      get_death_probability (some t) age g = .ok 0) ∧
    (∀ (t : Table) (l : Series) (age : Nat) (g : String),
      (if g == "male" then t.male else t.female) = some l →
      l.lookup age = some none →
      get_death_probability_lc (some t) age g = .ok 0) ∧
    (∀ (t : Table) (l : Series) (age : Nat) (g : String),
      (if g == "male" then t.male else t.female) = some l →
      l.lookup age = none →
      get_death_probability_lc (some t) age g = .error ()) := by
  refine ⟨?_, ?_, ?_⟩
  · intro t l age g hg hl
    rcases hg with ⟨hk, hf⟩ | ⟨hk, hm⟩
    · simp only [get_death_probability, resolveSeries, hk, hf]
      rcases hl with hl | hl <;> simp [seriesLookup, hl, ok_bind, exc_pure]
    · simp only [get_death_probability, resolveSeries, hk, hm]
      rcases hl with hl | hl <;> simp [seriesLookup, hl, ok_bind, exc_pure]
  · intro t l age g hg hl
    simp only [get_death_probability_lc]
    rw [hg]
    dsimp only
    rw [hl]
  · intro t l age g hg hl
    simp only [get_death_probability_lc]
    rw [hg]
    dsimp only
    rw [hl]

/-- Witness for C5: a female series with an entry at age 50, a NaN entry at
age 60 and nothing else; age 99 is absent.  The library lookup returns 0 at
the absent age, the life_insurance_calculator lookup returns 0 at the NaN
age and raises at the absent age. -/
theorem lookup_missing_data_policy_witness :
    get_death_probability (some ⟨some [(50, some (1 / 5)), (60, none)], some []⟩) 99
        "female" = .ok 0 ∧
    get_death_probability_lc (some ⟨some [(50, some (1 / 5)), (60, none)], some []⟩) 60
        "female" = .ok 0 ∧
    get_death_probability_lc (some ⟨some [(50, some (1 / 5)), (60, none)], some []⟩) 99
        "female" = .error () :=
  ⟨lookup_missing_data_policy.1 _ [(50, some (1 / 5)), (60, none)] 99 "female"
      (Or.inl ⟨by decide, rfl⟩) (Or.inl rfl),
    lookup_missing_data_policy.2.1 _ [(50, some (1 / 5)), (60, none)] 60 "female" rfl rfl,
    lookup_missing_data_policy.2.2 _ [(50, some (1 / 5)), (60, none)] 99 "female" rfl rfl⟩

/-- A table whose female series is present (one real entry) and whose male
series is present but empty, used to exhibit the gender-fallback raise. -/
def tableF : Table := ⟨some [(20, some (1 / 2))], some []⟩

/-- Claim C7, counterexample: for a table containing a female series, the
library lookup under the unrecognized gender "other" does not fall back to
the female series - it raises ValueError (the or-fallback truth-tests a
pandas Series), while the female lookup returns the stored probability. -/
theorem unrecognized_gender_fallback_counterexample :
    get_death_probability (some tableF) 20 "other" = .error () ∧
    get_death_probability (some tableF) 20 "female" = .ok (1 / 2) := by
  constructor
  · simp [get_death_probability, resolveSeries, tableF, pyLower_other, error_bind]
  · simp [get_death_probability, resolveSeries, tableF, pyLower_female, seriesLookup,
      ok_bind, exc_pure, List.lookup]

/-- Claim C7 (amended): in insurance_library.py / insurance_calcv2.py an
unrecognized gender reaches the or-fallback, which raises ValueError
whenever the female series is present and uses the male series only when
the female series is absent; only life_insurance_calculator.py actually
falls back to the female series, and it does so for every gender other
than the exact string "male". -/
theorem gender_fallback_behavior :
    (∀ (t : Table) (g : String) (age : Nat), t.female = none →
      get_death_probability (some t) age g = .ok (seriesLookup t.male age)) ∧
    (∀ (t : Table) (g : String) (age : Nat), t.female.isSome →
      pyLower g ≠ "female" → pyLower g ≠ "male" →
      get_death_probability (some t) age g = .error ()) ∧
    (∀ (d : Option Table) (g : String) (age : Nat), g ≠ "male" →
      get_death_probability_lc d age g = get_death_probability_lc d age "female") := by
  refine ⟨?_, ?_, ?_⟩
  · intro t g age hf
    simp only [get_death_probability, resolveSeries, hf]
    by_cases h : pyLower g = "male" ∧ (t.male.isSome = true) <;>
      simp [h, ok_bind, exc_pure]
  · intro t g age hf hg1 hg2
    obtain ⟨l, hl⟩ := Option.isSome_iff_exists.mp hf
    simp only [get_death_probability, resolveSeries, hl]
    rw [if_neg (by simp [hg1]), if_neg (by simp [hg2])]
    rfl
  · intro d g age hg
    cases d with
    | none => rfl
    | some t =>
      simp only [get_death_probability_lc]
      have h1 : (g == "male") = false := by
        simp [hg]
      have h2 : (("female" : String) == "male") = false := by decide
      rw [h1, h2]

/-- Witness for C7: with the female series absent the library lookup uses
the male series for the unrecognized gender "other"; with tableF (female
present) the gender "other" raises; the life_insurance_calculator lookup
treats "other" exactly as "female". -/
theorem gender_fallback_behavior_witness :
    get_death_probability (some ⟨none, some [(20, some 1)]⟩) 20 "other" =
      .ok (seriesLookup (some [(20, some 1)]) 20) ∧
    get_death_probability (some tableF) 20 "other" = .error () ∧
    get_death_probability_lc (some tableF) 20 "other" =
      get_death_probability_lc (some tableF) 20 "female" :=
  ⟨gender_fallback_behavior.1 ⟨none, some [(20, some 1)]⟩ "other" 20 rfl,
    gender_fallback_behavior.2.1 tableF "other" 20 rfl (by decide) (by decide),
    gender_fallback_behavior.2.2 (some tableF) "other" 20 (by decide)⟩

/-- All bounds preserved by one endowment loop iteration, including the
carried previous-probability bounds needed for the induction. -/
theorem endowStep_bounds (q : Nat → ℚ) (cur pay : Nat) (i : ℚ)
    (hq : ∀ a, 0 ≤ q a ∧ q a ≤ 1) (s : EndowState) (a : Nat)
    (h0 : 0 ≤ s.alive) (h1 : s.alive ≤ 1) (hp0 : 0 ≤ s.qPrev) (hp1 : s.qPrev ≤ 1) :
    0 ≤ (endowStep q cur pay i s a).alive ∧
    (endowStep q cur pay i s a).alive ≤ s.alive ∧
    (endowStep q cur pay i s a).alive ≤ 1 ∧
    0 ≤ (endowStep q cur pay i s a).qPrev ∧
    (endowStep q cur pay i s a).qPrev ≤ 1 ∧
    s.cdf ≤ (endowStep q cur pay i s a).cdf := by
  obtain ⟨hqa0, hqa1⟩ := hq a
  have halive0 : 0 ≤ (1 - s.qPrev) * s.alive := mul_nonneg (by linarith) h0
  have haliveLe : (1 - s.qPrev) * s.alive ≤ s.alive := by nlinarith
  have halive1 : (1 - s.qPrev) * s.alive ≤ 1 := by nlinarith
  unfold endowStep
  dsimp only
  refine ⟨halive0, haliveLe, halive1, hqa0, hqa1, ?_⟩
  by_cases hlt : a < pay - 1 <;> simp only [hlt, if_true, if_false] <;>
    nlinarith [mul_nonneg halive0 hqa0]

theorem foldl_endowStep_bounds (q : Nat → ℚ) (cur pay : Nat) (i : ℚ)
    (hq : ∀ a, 0 ≤ q a ∧ q a ≤ 1) :
    ∀ (l : List Nat) (s : EndowState),
      0 ≤ s.alive → s.alive ≤ 1 → 0 ≤ s.qPrev → s.qPrev ≤ 1 →
      0 ≤ (l.foldl (endowStep q cur pay i) s).alive ∧
      (l.foldl (endowStep q cur pay i) s).alive ≤ s.alive ∧
      s.cdf ≤ (l.foldl (endowStep q cur pay i) s).cdf
  | [], _, h0, _, _, _ => ⟨h0, le_refl _, le_refl _⟩
  | a :: l, s, h0, h1, hp0, hp1 => by
    rw [List.foldl_cons]
    obtain ⟨s10, s1le, s1le1, sp0, sp1, scdf⟩ :=
      endowStep_bounds q cur pay i hq s a h0 h1 hp0 hp1
    obtain ⟨r0, rle, rcdf⟩ := foldl_endowStep_bounds q cur pay i hq l _ s10 s1le1 sp0 sp1
    exact ⟨r0, le_trans rle s1le, le_trans scdf rcdf⟩

/-- Claim C9: when every looked-up probability lies in [0, 1], the running
survival probability of the endowment loop stays in [0, 1] and never
increases from one iteration to the next, and the per-year weight added to
death_cdf is non-negative at every step (the cdf accumulator never
decreases). -/
theorem endowment_survival_invariant (q : Nat → ℚ) (current_age payout_age : Nat)
    (interest : ℚ) (hq : ∀ a, 0 ≤ q a ∧ q a ≤ 1) :
    (∀ (s : EndowState) (a : Nat),
      0 ≤ s.alive → s.alive ≤ 1 → 0 ≤ s.qPrev → s.qPrev ≤ 1 →
      0 ≤ (endowStep q current_age payout_age interest s a).alive ∧
      (endowStep q current_age payout_age interest s a).alive ≤ s.alive ∧
      (endowStep q current_age payout_age interest s a).alive ≤ 1 ∧
      s.cdf ≤ (endowStep q current_age payout_age interest s a).cdf) ∧
    (∀ (l : List Nat) (s : EndowState),
      0 ≤ s.alive → s.alive ≤ 1 → 0 ≤ s.qPrev → s.qPrev ≤ 1 →
      0 ≤ (l.foldl (endowStep q current_age payout_age interest) s).alive ∧
      (l.foldl (endowStep q current_age payout_age interest) s).alive ≤ s.alive ∧
      s.cdf ≤ (l.foldl (endowStep q current_age payout_age interest) s).cdf) := by
  constructor
  · intro s a h0 h1 hp0 hp1
    obtain ⟨x0, x1, x2, _, _, x5⟩ :=
      endowStep_bounds q current_age payout_age interest hq s a h0 h1 hp0 hp1
    exact ⟨x0, x1, x2, x5⟩
  · intro l s h0 h1 hp0 hp1
    exact foldl_endowStep_bounds q current_age payout_age interest hq l s h0 h1 hp0 hp1

/-- Witness for C9: the zero-probability table over the run from age 20 to
22, starting at the initial state. -/
theorem endowment_survival_invariant_witness :
    0 ≤ ([20, 21].foldl (endowStep (fun _ => 0) 20 22 (6 / 100)) initEndowState).alive ∧
    ([20, 21].foldl (endowStep (fun _ => 0) 20 22 (6 / 100)) initEndowState).alive ≤
      initEndowState.alive ∧
    initEndowState.cdf ≤
      ([20, 21].foldl (endowStep (fun _ => 0) 20 22 (6 / 100)) initEndowState).cdf :=
  (endowment_survival_invariant (fun _ => 0) 20 22 (6 / 100) (fun _ => by norm_num)).2
    [20, 21] initEndowState (by norm_num [initEndowState]) (by norm_num [initEndowState])
    (by norm_num [initEndowState]) (by norm_num [initEndowState])

/-- A zero-mortality table for the term-solver scenario: explicit 0 entries
for ages 35 to 54 (the life_insurance_calculator lookup raises on any age
absent from the index, so the zeros must be present). -/
def zeroT35 : Table := ⟨some ((List.range' 35 20).map fun a => (a, some 0)), some []⟩

theorem termStep_zero (data : Option Table) (g : String) (age : Nat) (cov : ℝ)
    (smoker : Bool) (hr : HealthRating) (s : TermState) (y : Nat)
    (hl : get_death_probability_lc data (age + y) g = .ok 0) :
    termStep data g age cov smoker hr s y = .ok s := by
  obtain ⟨e, sv, c⟩ := s
  simp only [termStep, hl, ok_bind, exc_pure, adjust_death_prob]
  norm_num

theorem term_loop_zero (data : Option Table) (g : String) (age : Nat) (cov : ℝ)
    (smoker : Bool) (hr : HealthRating) :
    ∀ (l : List Nat) (s : TermState),
      (∀ y ∈ l, get_death_probability_lc data (age + y) g = .ok 0) →
      l.foldlM (termStep data g age cov smoker hr) s = .ok s
  | [], _, _ => rfl
  | y :: l, s, h => by
    rw [List.foldlM_cons,
      termStep_zero data g age cov smoker hr s y (h y (List.mem_cons_self y l)), ok_bind]
    exact term_loop_zero data g age cov smoker hr l s
      (fun b hb => h b (List.mem_cons_of_mem y hb))

theorem zeroT35_lookups : ∀ y ∈ List.range 20,
    get_death_probability_lc (some zeroT35) (35 + y) "female" = .ok 0 := by
  intro y hy
  fin_cases hy <;> rfl

/-- The full term-solver run of the C6 scenario: age 35, coverage 500000,
20-year term, non-smoker, Preferred (Good), zero-mortality table. -/
theorem term_scenario_eval :
    calculate_premium_term 35 "female" 500000 20 false HealthRating.preferredGood
      (some zeroT35) = .ok (100, 0) := by
  simp only [calculate_premium_term]
  rw [term_loop_zero (some zeroT35) "female" 35 500000 false HealthRating.preferredGood
    (List.range 20) ⟨0, 1, 0⟩ zeroT35_lookups, ok_bind]
  simp only [exc_pure]
  norm_num [max_eq_left (by norm_num : (10 : ℝ) ≤ 100)]

/-- Claim C6, counterexample: the scenario premium is not the claimed
10 per month. -/
theorem term_scenario_premium_not_ten :
    calculate_premium_term 35 "female" 500000 20 false HealthRating.preferredGood
      (some zeroT35) ≠ .ok (10, 0) := by
  rw [term_scenario_eval]
  intro h
  have h2 : ((100 : ℝ), (0 : ℝ)) = ((10 : ℝ), (0 : ℝ)) := Except.ok.inj h
  have h3 : (100 : ℝ) = 10 := congrArg Prod.fst h2
  norm_num at h3

/-- Claim C6 (amended): in the scenario the expected claims are indeed 0
(the loop leaves the initial state untouched), but the monthly premium is
the fixed 100-dollar expense loading, i.e. max(0 + 100, 10) = 100: the
10-dollar floor is not binding because the expense loading alone already
exceeds it. -/
theorem term_scenario_premium_is_expense_loading :
    (List.range 20).foldlM
      (termStep (some zeroT35) "female" 35 500000 false HealthRating.preferredGood)
      ⟨0, 1, 0⟩ = .ok ⟨0, 1, 0⟩ ∧
    calculate_premium_term 35 "female" 500000 20 false HealthRating.preferredGood
      (some zeroT35) = .ok (100, 0) :=
  ⟨term_loop_zero (some zeroT35) "female" 35 500000 false HealthRating.preferredGood
      (List.range 20) ⟨0, 1, 0⟩ zeroT35_lookups, term_scenario_eval⟩

/-- A table giving death probability 1/4 at age 30, to exhibit the missing
clamp in the term solver's risk adjustments. -/
def tableQ : Table := ⟨some [(30, some (1 / 4))], some []⟩

/-- Claim C10: the smoker and health multipliers are applied as bare
multiplications with no clamp, so a base probability of 1/4 with the
smoker multiplier 2.5 and the substandard factor 2.0 gives an adjusted
annual death probability of 1.25; after one year the running survival
probability is 1 - 1.25 = -1/4 < 0 and the reported cumulative death
probability is 125 percent. -/
theorem term_no_clamp_overshoot :
    (∀ (base factor : ℝ), adjust_death_prob base true factor = base * 2.5 * factor) ∧
    ((List.range 1).foldlM
        (termStep (some tableQ) "female" 30 1000 true HealthRating.substandard)
        ⟨0, 1, 0⟩).map TermState.survival = .ok (-(1 / 4)) ∧
    (calculate_premium_term 30 "female" 1000 1 true HealthRating.substandard
        (some tableQ)).map Prod.snd = .ok 125 ∧ (100 : ℝ) < 125 := by
  have hl : get_death_probability_lc (some tableQ) (30 + 0) "female" = .ok (1 / 4) := rfl
  refine ⟨fun base factor => by simp [adjust_death_prob], ?_, ?_, by norm_num⟩
  · simp only [List.range, List.range.loop, List.foldlM_cons, List.foldlM_nil, termStep, hl,
      ok_bind, exc_pure, adjust_death_prob, health_factors]
    simp [Except.map]
    norm_num
  · simp only [calculate_premium_term, List.range, List.range.loop, List.foldlM_cons,
      List.foldlM_nil, termStep, hl, ok_bind, exc_pure, adjust_death_prob, health_factors]
    simp [Except.map]
    norm_num

/-- Claim C8: the ordinary accumulated annuity on real (possibly
fractional) periods is 0 at periods 0 for every nonzero rate, and is
strictly increasing in the number of periods for every positive rate. -/
theorem accumulated_value_ordinary_monotone_and_zero :
    (∀ i : ℝ, i ≠ 0 → accumulated_annuity_real 0 i 1 = 0) ∧
    (∀ (i p q : ℝ), 0 < i → p < q →
      accumulated_annuity_real p i 1 < accumulated_annuity_real q i 1) := by
  constructor
  · intro i hi
    simp [accumulated_annuity_real, Real.rpow_zero]
  · intro i p q hi hpq
    simp only [accumulated_annuity_real, if_pos rfl]
    have hb : (1 : ℝ) < 1 + i := by linarith
    have hpow : (1 + i) ^ p < (1 + i) ^ q := (Real.rpow_lt_rpow_left_iff hb).mpr hpq
    have hnum : (1 + i) ^ p - 1 < (1 + i) ^ q - 1 := by linarith
    exact (div_lt_div_iff_of_pos_right hi).mpr hnum

/-- Witness for C8: rate 1, periods 0 and 1. -/
theorem accumulated_value_ordinary_witness :
    (1 : ℝ) ≠ 0 ∧ accumulated_annuity_real 0 1 1 = 0 ∧ (0 : ℝ) < 1 ∧
    accumulated_annuity_real 0 1 1 < accumulated_annuity_real 1 1 1 :=
  ⟨by norm_num, accumulated_value_ordinary_monotone_and_zero.1 1 (by norm_num), by norm_num,
    accumulated_value_ordinary_monotone_and_zero.2 1 0 1 (by norm_num) (by norm_num)⟩

end Claims

end Insurance
